import Mathlib

/-!
Shallow embedding of the OnCall Grafana-plugin front-end store logic:
- `CommonIntegrationHelper.getRouteConditionWording` / `getRouteConditionTooltipWording`
  (src/unnamed/part_000), and
- `AlertReceiveChannelStore`
  (src/grafana-plugin/src/models/alert_receive_channel/alert_receive_channel.ts).

JS objects used as keyed mappings (`{ [id: string]: V }`) are embedded as
functions `String → Option V`; object spread `{...a, ...b}` becomes a
right-biased union; `reduce` building an object from a list becomes a left
fold inserting (later entries overwriting earlier ones).  Async store methods
are embedded as functions from (store state, network oracle) to an outcome
holding the final state, the ordered trace of events (MobX `runInAction`
transactions and direct mutations as `stateUpdate`, requests as `netCall`),
and `none` as return value when an awaited request failed (the JS exception
propagates and the rest of the method body does not run).
-/

namespace OnCall

/-- One label key/value pair (`components['schemas']['LabelPair']`). -/
structure LabelPair where
  key : String
  value : String
  deriving DecidableEq, Repr

/-- Result type of `getRouteConditionWording`: `'Default' | 'Else' | 'If'`. -/
inductive RouteCondition where
  | Default
  | Else
  | If
  deriving DecidableEq, Repr

/-- `CommonIntegrationHelper.getRouteConditionWording` (src/unnamed/part_000,
lines 8–15).  `Object.keys(channelFilters).length` on a (dense) JS array is
its length.  The JS comparison `routeIndex === totalCount - 1` is carried out
on numbers, so it is embedded over `Int` (for an empty array `totalCount - 1`
is `-1`, not `0`); the ternary `routeIndex ? 'Else' : 'If'` tests truthiness,
i.e. `routeIndex ≠ 0`. -/
def getRouteConditionWording (channelFilters : List String) (routeIndex : Nat) :
    RouteCondition :=
  let totalCount := channelFilters.length
  if (routeIndex : Int) = (totalCount : Int) - 1 then .Default
  else if routeIndex ≠ 0 then .Else
  else .If

/-- The sentence returned for the default route by
`getRouteConditionTooltipWording`. -/
def defaultRouteTooltip : String :=
  "If the alert payload does not match to the previous routes, it will stick to the default route."

/-- Tooltip for routes matching on labels. -/
def labelsRouteTooltip : String :=
  "Alerts matching these labels will be grouped to this route"

/-- Tooltip for routes matching via the routing template. -/
def templateRouteTooltip : String :=
  "Alerts will be grouped based on the Routing Template and escalated"

/-- `CommonIntegrationHelper.getRouteConditionTooltipWording`
(src/unnamed/part_000, lines 17–35).  `labels` may be `null`/`undefined`
(the source guards with `labels?.length`), hence `Option`. -/
def getRouteConditionTooltipWording (channelFilters : List String)
    (routeIndex : Nat) (labels : Option (List LabelPair)) : String :=
  let totalCount := channelFilters.length
  if (routeIndex : Int) = (totalCount : Int) - 1 then
    defaultRouteTooltip
  else if (labels.map List.length).getD 0 ≠ 0 then
    labelsRouteTooltip
  else
    templateRouteTooltip

/-- A JS object used as a keyed mapping `{ [id: string]: V }`. -/
abbrev StrMap (V : Type) : Type := String → Option V

/-- The empty object `{}`. -/
def StrMap.empty {V : Type} : StrMap V := fun _ => none

/-- `{...m, [k]: v}`: insert or overwrite a single key. -/
def StrMap.set {V : Type} (m : StrMap V) (k : String) (v : V) : StrMap V :=
  fun k' => if k' = k then some v else m k'

/-- `{...a, ...b}`: right-biased union, keys of `b` overwrite keys of `a`. -/
def StrMap.union {V : Type} (a b : StrMap V) : StrMap V :=
  fun k => match b k with
    | some v => some v
    | none => a k

/-- `list.reduce((acc, x) => entry(x) ? {...acc, [k(x)]: v(x)} : acc, start)`:
a left fold over the list, each yielded key/value pair inserted with later
entries overwriting earlier ones; elements for which `entry` yields nothing
leave the accumulator unchanged. -/
def reduceObj {α V : Type} (entry : α → Option (String × V)) (l : List α)
    (start : StrMap V) : StrMap V :=
  l.foldl (fun m a =>
    match entry a with
    | some kv => m.set kv.1 kv.2
    | none => m) start

/-- `Heartbeat` DTO (`models/heartbeat`): only its server-assigned `id` is
used by this store; the remaining DTO fields are summarized by
`timeout_seconds`. -/
structure Heartbeat where
  id : String
  timeout_seconds : Nat
  deriving DecidableEq, Repr

/-- `ApiSchemas['AlertReceiveChannel']` DTO.  Only `id` and `heartbeat` are
inspected by the embedded operations; the remaining DTO fields are summarized
by `verbal_name`.  For `heartbeat`, `none` means the key is absent
(`undefined`), `some none` means it is present and `null`, and
`some (some hb)` means a heartbeat object. -/
structure AlertReceiveChannel where
  id : String
  verbal_name : String
  heartbeat : Option (Option Heartbeat)
  deriving DecidableEq, Repr

/-- `ChannelFilter` DTO (`models/channel_filter`): its `id`, its parent
`alert_receive_channel` id, and the remaining fields summarized by
`filtering_term`. -/
structure ChannelFilter where
  id : String
  alert_receive_channel : String
  filtering_term : String
  deriving DecidableEq, Repr

/-- lodash `omit(item, 'heartbeat')`: a copy of the item without the
`heartbeat` key. -/
def omitHeartbeat (a : AlertReceiveChannel) : AlertReceiveChannel :=
  { a with heartbeat := none }

/-- The observable state of `AlertReceiveChannelStore` (fields of the class,
lines 20–41), restricted to the fields the embedded operations touch.
`heartbeatStoreItems` stands for `rootStore.heartbeatStore.items`, which
`populateHearbeats` writes; `counters` values are abstracted to `Nat`. -/
structure AlertReceiveChannelStore where
  items : StrMap AlertReceiveChannel
  counters : StrMap Nat
  channelFilterIds : StrMap (List String)
  channelFilters : StrMap ChannelFilter
  alertReceiveChannelToHeartbeat : StrMap String
  heartbeatStoreItems : StrMap Heartbeat
  searchResult : List String

/-- One observable step of a store method: a network request at the moment
its promise is created, or one store mutation (one MobX `runInAction`
transaction, or one direct assignment/splice outside `runInAction`) named by
the mutated field. -/
inductive Event where
  | netCall (method : String) (path : String)
  | stateUpdate (field : String)
  deriving DecidableEq, Repr

/-- The network boundary, one oracle per endpoint the store calls; `none`
means the request fails (the promise rejects). -/
structure Net where
  getChannelFilters : String → Option (List ChannelFilter)
  putChannelFilter : String → ChannelFilter → Option ChannelFilter
  putMoveToPosition : String → Nat → Option Unit
  delChannelFilter : String → Option Unit
  getAlertReceiveChannels : String → Option (List AlertReceiveChannel)
  getAlertReceiveChannel : String → Option AlertReceiveChannel
  getCounters : Option (StrMap Nat)
  postAlertReceiveChannel : AlertReceiveChannel → Option AlertReceiveChannel
  loadCurrentOrganization : Option Unit

/-- Every endpoint of the oracle fails. -/
def Net.failing (net : Net) : Prop :=
  (∀ a, net.getChannelFilters a = none) ∧
  (∀ a d, net.putChannelFilter a d = none) ∧
  (∀ a n, net.putMoveToPosition a n = none) ∧
  (∀ a, net.delChannelFilter a = none) ∧
  (∀ q, net.getAlertReceiveChannels q = none) ∧
  (∀ a, net.getAlertReceiveChannel a = none) ∧
  net.getCounters = none ∧
  (∀ d, net.postAlertReceiveChannel d = none) ∧
  net.loadCurrentOrganization = none

/-- Outcome of one (async) store method: the final store state, the ordered
trace of events, and the returned value — `none` when an awaited request
failed, in which case the JS exception propagates and the rest of the method
body does not run. -/
structure OpResult (α : Type) where
  state : AlertReceiveChannelStore
  events : List Event
  ret : Option α

/-- Modelled from the spec: the `move` helper imported from `state/helpers`
is not under src/.  The spec calls the operation "an in-memory list move"
("optimistic local list reordering", "it performs an in-memory list move"):
the element at `oldIndex` is taken out and reinserted at `newIndex`. -/
def move {α : Type} (l : List α) (oldIndex newIndex : Nat) : List α :=
  match l[oldIndex]? with
  | none => l
  | some x => (l.eraseIdx oldIndex).insertIdx newIndex x

namespace AlertReceiveChannelStore

/-- Path of the channel-filter list request in `fetchChannelFilters`
(line 215). -/
def channelFiltersListPath : String := "/channel_filters/"

/-- Path built by `saveChannelFilter` (line 252):
`` `/channel_filters/${channelFilterId}/` ``. -/
def saveChannelFilterPath (channelFilterId : String) : String :=
  "/channel_filters/" ++ channelFilterId ++ "/"

/-- Path built by `moveChannelFilterToPosition` (line 280):
`` `/channel_filters/${channelFilterId}/move_to_position/?position=${newIndex}` ``. -/
def moveChannelFilterToPositionPath (channelFilterId : String)
    (newIndex : Nat) : String :=
  "/channel_filters/" ++ channelFilterId ++ "/move_to_position/?position=" ++
    toString newIndex

/-- Path built by `deleteChannelFilter` (line 293):
`` `/channel_filters/${channelFilterId}` `` (note: no trailing slash in the
source). -/
def deleteChannelFilterPath (channelFilterId : String) : String :=
  "/channel_filters/" ++ channelFilterId

/-- `AlertReceiveChannelStore.fetchChannelFilters` (lines 214–249): GET the
filters of one parent, merge them into `channelFilters` keyed by id, in
overwrite mode then replace `channelFilters` by exactly the fetched entries,
and record the server-ordered id list under the parent id in
`channelFilterIds`.  Each `runInAction` block is one `stateUpdate` event. -/
def fetchChannelFilters (s : AlertReceiveChannelStore) (net : Net)
    (alertReceiveChannelId : String) (isOverwrite : Bool) : OpResult Unit :=
  match net.getChannelFilters alertReceiveChannelId with
  | none => ⟨s, [.netCall "GET" channelFiltersListPath], none⟩
  | some response =>
    let channelFilters :=
      reduceObj (fun cf => some (cf.id, cf)) response StrMap.empty
    let s1 := { s with channelFilters := s.channelFilters.union channelFilters }
    let s2 := if isOverwrite then { s1 with channelFilters := channelFilters }
      else s1
    let ids := response.map ChannelFilter.id
    let s3 := { s2 with channelFilterIds := s2.channelFilterIds.set alertReceiveChannelId ids }
    ⟨s3,
     [Event.netCall "GET" channelFiltersListPath,
      Event.stateUpdate "channelFilters"] ++
       (if isOverwrite then [Event.stateUpdate "channelFilters"] else []) ++
       [Event.stateUpdate "channelFilterIds"],
     some ()⟩

/-- `AlertReceiveChannelStore.saveChannelFilter` (lines 251–265): PUT the
payload to `/channel_filters/{id}/`, then store the response keyed by the
response's id. -/
def saveChannelFilter (s : AlertReceiveChannelStore) (net : Net)
    (channelFilterId : String) (data : ChannelFilter) :
    OpResult ChannelFilter :=
  match net.putChannelFilter channelFilterId data with
  | none => ⟨s, [.netCall "PUT" (saveChannelFilterPath channelFilterId)], none⟩
  | some response =>
    ⟨{ s with channelFilters := s.channelFilters.set response.id response },
     [Event.netCall "PUT" (saveChannelFilterPath channelFilterId),
      Event.stateUpdate "channelFilters"],
     some response⟩

/-- `AlertReceiveChannelStore.moveChannelFilterToPosition` (lines 267–283):
read the id at `oldIndex`, apply the local `move` to
`channelFilterIds[parent]` (a direct mutation, before any request), PUT
`move_to_position` for that id, then reload the filters in overwrite mode
(the source does not `await` the reload; it is modelled as completing).  When
`channelFilterIds[parent]` is absent the JS indexing throws before any
mutation; an out-of-range `oldIndex` (which in JS would proceed with an
`undefined` id) is modelled the same way, as no claim exercises it. -/
def moveChannelFilterToPosition (s : AlertReceiveChannelStore) (net : Net)
    (alertReceiveChannelId : String) (oldIndex newIndex : Nat) :
    OpResult Unit :=
  match s.channelFilterIds alertReceiveChannelId with
  | none => ⟨s, [], none⟩
  | some ids =>
    match ids[oldIndex]? with
    | none => ⟨s, [], none⟩
    | some channelFilterId =>
      let moved := s.channelFilterIds.set alertReceiveChannelId (move ids oldIndex newIndex)
      let s1 := { s with channelFilterIds := moved }
      match net.putMoveToPosition channelFilterId newIndex with
      | none =>
        ⟨s1,
         [Event.stateUpdate "channelFilterIds",
          Event.netCall "PUT"
            (moveChannelFilterToPositionPath channelFilterId newIndex)],
         none⟩
      | some _ =>
        let reload :=
          fetchChannelFilters s1 net alertReceiveChannelId true
        ⟨reload.state,
         Event.stateUpdate "channelFilterIds" ::
           Event.netCall "PUT"
             (moveChannelFilterToPositionPath channelFilterId newIndex) ::
           reload.events,
         some ()⟩

/-- `AlertReceiveChannelStore.deleteChannelFilter` (lines 285–298): splice
the id out of the parent's `channelFilterIds` (a direct mutation before the
request; JS `splice(indexOf(id), 1)` removes the last element when the id is
absent, since `indexOf` then yields `-1`), DELETE
`/channel_filters/{id}` (no trailing slash), then reload in overwrite mode.
When the filter or the parent's id list is absent the JS property access
throws before any mutation. -/
def deleteChannelFilter (s : AlertReceiveChannelStore) (net : Net)
    (channelFilterId : String) : OpResult Unit :=
  match s.channelFilters channelFilterId with
  | none => ⟨s, [], none⟩
  | some channelFilter =>
    match s.channelFilterIds channelFilter.alert_receive_channel with
    | none => ⟨s, [], none⟩
    | some ids =>
      let ids1 := match ids.indexOf? channelFilterId with
        | some i => ids.eraseIdx i
        | none => ids.dropLast
      let spliced := s.channelFilterIds.set channelFilter.alert_receive_channel ids1
      let s1 := { s with channelFilterIds := spliced }
      match net.delChannelFilter channelFilterId with
      | none =>
        ⟨s1,
         [Event.stateUpdate "channelFilterIds",
          Event.netCall "DELETE" (deleteChannelFilterPath channelFilterId)],
         none⟩
      | some _ =>
        let reload :=
          fetchChannelFilters s1 net channelFilter.alert_receive_channel true
        ⟨reload.state,
         Event.stateUpdate "channelFilterIds" ::
           Event.netCall "DELETE" (deleteChannelFilterPath channelFilterId) ::
           reload.events,
         some ()⟩

/-- `AlertReceiveChannelStore.populateHearbeats` (lines 176–212), a
synchronous method: merge the heartbeats of the given channels into the
heartbeat store keyed by heartbeat id, and record channel id → heartbeat id
in `alertReceiveChannelToHeartbeat`; channels whose `heartbeat` is absent or
`null` (the JS truthiness guard `if (alertReceiveChannel.heartbeat)`)
contribute nothing. -/
def populateHearbeats (s : AlertReceiveChannelStore)
    (alertReceiveChannels : List AlertReceiveChannel) :
    AlertReceiveChannelStore × List Event :=
  let heartbeats := reduceObj
    (fun arc => (arc.heartbeat.join).map (fun hb => (hb.id, hb)))
    alertReceiveChannels StrMap.empty
  let s1 := { s with heartbeatStoreItems := s.heartbeatStoreItems.union heartbeats }
  let toHeartbeat := reduceObj
    (fun arc => (arc.heartbeat.join).map (fun hb => (arc.id, hb.id)))
    alertReceiveChannels StrMap.empty
  let s2 := { s1 with alertReceiveChannelToHeartbeat := s1.alertReceiveChannelToHeartbeat.union toHeartbeat }
  (s2, [Event.stateUpdate "heartbeatStoreItems",
        Event.stateUpdate "alertReceiveChannelToHeartbeat"])

/-- `AlertReceiveChannelStore.fetchCounters` (lines 390–395): GET the
counters and replace `this.counters` wholesale. -/
def fetchCounters (s : AlertReceiveChannelStore) (net : Net) : OpResult Unit :=
  match net.getCounters with
  | none => ⟨s, [.netCall "GET" "/alert_receive_channels/counters/"], none⟩
  | some data =>
    ⟨{ s with counters := data },
     [Event.netCall "GET" "/alert_receive_channels/counters/",
      Event.stateUpdate "counters"],
     some ()⟩

/-- `AlertReceiveChannelStore.fetchItems` (lines 96–125): GET the channel
list, merge the results into `items` keyed by id with the `heartbeat` key
omitted, populate the heartbeat mappings, replace `searchResult`, and kick
off `fetchCounters` (invoked without `await` in the source; modelled as
running to completion, its failure not affecting `fetchItems`' own return
value). -/
def fetchItems (s : AlertReceiveChannelStore) (net : Net) (query : String) :
    OpResult (List AlertReceiveChannel) :=
  match net.getAlertReceiveChannels query with
  | none => ⟨s, [.netCall "GET" "/alert_receive_channels/"], none⟩
  | some results =>
    let fetched :=
      reduceObj (fun item => some (item.id, omitHeartbeat item)) results StrMap.empty
    let s1 := { s with items := s.items.union fetched }
    let pop := populateHearbeats s1 results
    let s2 := { pop.1 with searchResult := results.map AlertReceiveChannel.id }
    let fc := fetchCounters s2 net
    ⟨fc.state,
     Event.netCall "GET" "/alert_receive_channels/" ::
       Event.stateUpdate "items" ::
       (pop.2 ++ (Event.stateUpdate "searchResult" :: fc.events)),
     some results⟩

/-- `AlertReceiveChannelStore.fetchItemById` (lines 76–94): GET one channel
and store it under the requested id with
`heartbeat: alertReceiveChannel.data.heartbeat || null` — the heartbeat key
is always present on the stored entry, an absent or `null` response
heartbeat stored as an explicit `null` (`some none`); then populate the
heartbeat mappings from the response. -/
def fetchItemById (s : AlertReceiveChannelStore) (net : Net) (id : String) :
    OpResult AlertReceiveChannel :=
  match net.getAlertReceiveChannel id with
  | none =>
    ⟨s, [.netCall "GET" ("/alert_receive_channels/" ++ id ++ "/")], none⟩
  | some data =>
    let stored := { data with heartbeat := some data.heartbeat.join }
    let s1 := { s with items := s.items.set id stored }
    let pop := populateHearbeats s1 [data]
    ⟨pop.1,
     Event.netCall "GET" ("/alert_receive_channels/" ++ id ++ "/") ::
       Event.stateUpdate "items" :: pop.2,
     some data⟩

/-- `AlertReceiveChannelStore.create` (lines 48–56): POST the payload, then
await `rootStore.organizationStore.loadCurrentOrganization()` (defined
outside this store; it only touches the organization store, so it is
embedded as a bare awaited call), and return the response.  The method never
writes to `this.items` or any other field of this store. -/
def create (s : AlertReceiveChannelStore) (net : Net)
    (data : AlertReceiveChannel) : OpResult AlertReceiveChannel :=
  match net.postAlertReceiveChannel data with
  | none => ⟨s, [.netCall "POST" "/alert_receive_channels/"], none⟩
  | some result =>
    match net.loadCurrentOrganization with
    | none =>
      ⟨s, [Event.netCall "POST" "/alert_receive_channels/",
           Event.netCall "CALL" "organizationStore.loadCurrentOrganization"],
       none⟩
    | some _ =>
      ⟨s, [Event.netCall "POST" "/alert_receive_channels/",
           Event.netCall "CALL" "organizationStore.loadCurrentOrganization"],
       some result⟩

end AlertReceiveChannelStore

/-- A concrete heartbeat used by the concrete scenarios below. -/
def hb1 : Heartbeat := { id := "hb1", timeout_seconds := 60 }

/-- A concrete channel with a heartbeat. -/
def arc1 : AlertReceiveChannel :=
  { id := "arc1", verbal_name := "Grafana", heartbeat := some (some hb1) }

/-- A concrete channel without a heartbeat key. -/
def arc2 : AlertReceiveChannel :=
  { id := "arc2", verbal_name := "Webhook", heartbeat := none }

/-- A concrete channel as returned by a create call. -/
def arcNew : AlertReceiveChannel :=
  { id := "arcNew", verbal_name := "New", heartbeat := none }

/-- A concrete channel filter of parent `arc1`. -/
def cfA : ChannelFilter :=
  { id := "cfA", alert_receive_channel := "arc1", filtering_term := "a" }

/-- A second concrete channel filter of parent `arc1`. -/
def cfB : ChannelFilter :=
  { id := "cfB", alert_receive_channel := "arc1", filtering_term := "b" }

/-- A concrete store state with an entry in every keyed mapping: parent
`arc1` has the ordered routes `[cfA, cfB]`. -/
def sampleStore : AlertReceiveChannelStore :=
  { items := StrMap.empty.set "arc1" (omitHeartbeat arc1)
    counters := StrMap.empty.set "arc1" 2
    channelFilterIds := StrMap.empty.set "arc1" ["cfA", "cfB"]
    channelFilters := (StrMap.empty.set "cfA" cfA).set "cfB" cfB
    alertReceiveChannelToHeartbeat := StrMap.empty.set "arc1" "hb1"
    heartbeatStoreItems := StrMap.empty.set "hb1" hb1
    searchResult := ["arc1"] }

/-- A concrete oracle on which every endpoint succeeds; the channel-filter
list of every parent comes back as just `[cfB]`. -/
def netOk : Net :=
  { getChannelFilters := fun _ => some [cfB]
    putChannelFilter := fun _ data => some data
    putMoveToPosition := fun _ _ => some ()
    delChannelFilter := fun _ => some ()
    getAlertReceiveChannels := fun _ => some [arc1, arc2]
    getAlertReceiveChannel := fun _ => some arc1
    getCounters := some (StrMap.empty.set "arc1" 3)
    postAlertReceiveChannel := fun _ => some arcNew
    loadCurrentOrganization := some () }

/-- A concrete oracle on which every endpoint fails. -/
def netFail : Net :=
  { getChannelFilters := fun _ => none
    putChannelFilter := fun _ _ => none
    putMoveToPosition := fun _ _ => none
    delChannelFilter := fun _ => none
    getAlertReceiveChannels := fun _ => none
    getAlertReceiveChannel := fun _ => none
    getCounters := none
    postAlertReceiveChannel := fun _ => none
    loadCurrentOrganization := none }

end OnCall

namespace OnCall

/-- C1: For every array of channel filter ids and every route index,
`getRouteConditionWording` classifies the route by its position: `'Default'`
when the index is the last position of the array, `'If'` when the index is 0
(and not the last position), and `'Else'` for every other index. -/
theorem getRouteConditionWording_classifies
    (channelFilters : List String) (routeIndex : Nat) :
    getRouteConditionWording channelFilters routeIndex =
      if routeIndex + 1 = channelFilters.length then .Default
      else if routeIndex = 0 then .If
      else .Else := by
  unfold getRouteConditionWording
  rcases Nat.eq_zero_or_pos channelFilters.length with h0 | hpos
  · rw [h0]
    have hne : (routeIndex : Int) ≠ (0 : Int) - 1 := by omega
    have hne' : routeIndex + 1 ≠ 0 := by omega
    simp only [Nat.cast_zero, if_neg hne, if_neg hne']
    by_cases hz : routeIndex = 0 <;> simp [hz]
  · have hiff : ((routeIndex : Int) = (channelFilters.length : Int) - 1) ↔
        (routeIndex + 1 = channelFilters.length) := by omega
    by_cases hlast : routeIndex + 1 = channelFilters.length
    · rw [if_pos (hiff.mpr hlast), if_pos hlast]
    · rw [if_neg (fun h => hlast (hiff.mp h)), if_neg hlast]
      by_cases hz : routeIndex = 0 <;> simp [hz]

/-- C8: For every singleton array of channel filter ids,
`getRouteConditionWording(ids, 0)` returns `'Default'`, not `'If'`: the
last-position rule takes precedence when the only route is both first and
last. -/
theorem getRouteConditionWording_singleton (id : String) :
    getRouteConditionWording [id] 0 = .Default := by
  rfl

/-- C9: `getRouteConditionTooltipWording` returns the default-route sentence
if and only if `getRouteConditionWording` returns `'Default'` on the same
array and index, for every label list (including an absent one). -/
theorem getRouteConditionTooltipWording_default_iff
    (channelFilters : List String) (routeIndex : Nat)
    (labels : Option (List LabelPair)) :
    getRouteConditionTooltipWording channelFilters routeIndex labels =
        defaultRouteTooltip ↔
      getRouteConditionWording channelFilters routeIndex = .Default := by
  unfold getRouteConditionTooltipWording getRouteConditionWording
  by_cases hlast : (routeIndex : Int) = (channelFilters.length : Int) - 1
  · simp [hlast]
  · simp only [if_neg hlast]
    constructor
    · intro h
      by_cases hl : (labels.map List.length).getD 0 ≠ 0
      · rw [if_pos hl] at h
        exact absurd h (by decide)
      · rw [if_neg hl] at h
        exact absurd h (by decide)
    · intro h
      by_cases hz : routeIndex ≠ 0
      · rw [if_pos hz] at h
        exact absurd h (by decide)
      · rw [if_neg hz] at h
        exact absurd h (by decide)

/-- Lookup in `StrMap.set` at the written key. -/
theorem StrMap.set_same {V : Type} (m : StrMap V) (k : String) (v : V) :
    m.set k v k = some v := by
  unfold StrMap.set
  simp

/-- Lookup in `StrMap.set` at any other key. -/
theorem StrMap.set_other {V : Type} (m : StrMap V) (k k' : String) (v : V)
    (h : k' ≠ k) : m.set k v k' = m k' := by
  unfold StrMap.set
  simp [h]

/-- A key present before a one-key insert is present after it. -/
theorem StrMap.isSome_set {V : Type} (m : StrMap V) (k k' : String) (v : V)
    (h : (m k').isSome) : (m.set k v k').isSome := by
  unfold StrMap.set
  by_cases hk : k' = k <;> simp [hk, h]

/-- A right-biased union takes the right-hand value when it is present. -/
theorem StrMap.union_of_right {V : Type} (a b : StrMap V) (k : String) (v : V)
    (h : b k = some v) : a.union b k = some v := by
  unfold StrMap.union
  rw [h]

/-- A key present on the left of a right-biased union stays present. -/
theorem StrMap.isSome_union {V : Type} (a b : StrMap V) (k : String)
    (h : (a k).isSome) : (a.union b k).isSome := by
  unfold StrMap.union
  cases hb : b k <;> simp [h]

/-- Elements whose entries all carry keys different from `k` leave a
`reduceObj` fold unchanged at `k`. -/
theorem reduceObj_of_keys_ne {α V : Type} (entry : α → Option (String × V))
    (k : String) :
    ∀ (l : List α) (start : StrMap V),
      (∀ a ∈ l, ∀ kv, entry a = some kv → kv.1 ≠ k) →
      reduceObj entry l start k = start k := by
  intro l
  induction l with
  | nil => intro start _; rfl
  | cons x rest ih =>
    intro start h
    have hrest : ∀ a ∈ rest, ∀ kv, entry a = some kv → kv.1 ≠ k :=
      fun a ha => h a (List.mem_cons_of_mem x ha)
    have step : reduceObj entry (x :: rest) start = reduceObj entry rest
        (match entry x with
          | some kv => start.set kv.1 kv.2
          | none => start) := rfl
    rw [step]
    cases he : entry x with
    | none => exact ih _ hrest
    | some kv =>
      rw [ih _ hrest]
      exact StrMap.set_other start kv.1 k kv.2
        (Ne.symm (h x (List.mem_cons_self x rest) kv he))

/-- If some element of the list yields the pair `(k, v)` and every element
yielding key `k` yields the value `v`, a `reduceObj` fold maps `k` to `v`. -/
theorem reduceObj_lookup {α V : Type} (entry : α → Option (String × V))
    (k : String) (v : V) :
    ∀ (l : List α) (start : StrMap V),
      (∃ a ∈ l, entry a = some (k, v)) →
      (∀ b ∈ l, ∀ kv, entry b = some kv → kv.1 = k → kv.2 = v) →
      reduceObj entry l start k = some v := by
  intro l
  induction l with
  | nil =>
    intro start hex _
    obtain ⟨a, ha, _⟩ := hex
    cases ha
  | cons x rest ih =>
    intro start hex huniq
    have huniq' : ∀ b ∈ rest, ∀ kv, entry b = some kv → kv.1 = k → kv.2 = v :=
      fun b hb => huniq b (List.mem_cons_of_mem x hb)
    have step : reduceObj entry (x :: rest) start = reduceObj entry rest
        (match entry x with
          | some kv => start.set kv.1 kv.2
          | none => start) := rfl
    rw [step]
    by_cases hrx : ∃ a ∈ rest, entry a = some (k, v)
    · exact ih _ hrx huniq'
    · obtain ⟨a, ha, hea⟩ := hex
      have hax : entry x = some (k, v) := by
        rcases List.mem_cons.mp ha with rfl | har
        · exact hea
        · exact absurd ⟨a, har, hea⟩ hrx
      have hnone : ∀ b ∈ rest, ∀ kv, entry b = some kv → kv.1 ≠ k := by
        intro b hb kv heb hkb
        obtain ⟨k', v'⟩ := kv
        have hv : v' = v := huniq b (List.mem_cons_of_mem x hb) (k', v') heb hkb
        subst hkb
        subst hv
        exact hrx ⟨b, hb, heb⟩
      rw [hax, reduceObj_of_keys_ne entry k rest _ hnone]
      exact StrMap.set_same start k v

/-- The concrete all-failing oracle satisfies `Net.failing`. -/
theorem netFail_failing : Net.failing netFail :=
  ⟨fun _ => rfl, fun _ _ => rfl, fun _ _ => rfl, fun _ => rfl, fun _ => rfl,
   fun _ => rfl, rfl, fun _ => rfl, rfl⟩

/-- C2: `moveChannelFilterToPosition(parentId, oldIndex, newIndex)` performs
exactly these steps in this order: it first moves the id at `oldIndex` to
`newIndex` in the local ordered list `channelFilterIds[parentId]` (the first
event, and the state handed to the reload already carries the moved list),
then issues the `move_to_position` PUT for the id that was at `oldIndex`
with `position=newIndex` (the second event), and then reloads the channel
filter list for `parentId` from the server in overwrite mode (the remaining
events, the final state being the reload's). -/
theorem moveChannelFilterToPosition_steps
    (s : AlertReceiveChannelStore) (net : Net) (parentId : String)
    (oldIndex newIndex : Nat) (ids : List String) (channelFilterId : String)
    (hids : s.channelFilterIds parentId = some ids)
    (hold : ids[oldIndex]? = some channelFilterId)
    (hput : net.putMoveToPosition channelFilterId newIndex = some ()) :
    (s.moveChannelFilterToPosition net parentId oldIndex newIndex).state =
      ({ s with channelFilterIds := s.channelFilterIds.set parentId (move ids oldIndex newIndex) }.fetchChannelFilters net parentId true).state ∧
    (s.moveChannelFilterToPosition net parentId oldIndex newIndex).events =
      Event.stateUpdate "channelFilterIds" ::
        Event.netCall "PUT" (AlertReceiveChannelStore.moveChannelFilterToPositionPath channelFilterId newIndex) ::
        ({ s with channelFilterIds := s.channelFilterIds.set parentId (move ids oldIndex newIndex) }.fetchChannelFilters net parentId true).events ∧
    (s.channelFilterIds.set parentId (move ids oldIndex newIndex)) parentId =
      some (move ids oldIndex newIndex) := by
  unfold AlertReceiveChannelStore.moveChannelFilterToPosition
  simp only [hids, hold, hput]
  exact ⟨trivial, trivial, StrMap.set_same _ _ _⟩

/-- Witness for C2 at a concrete store, oracle and indices. -/
theorem moveChannelFilterToPosition_steps_witness :
    sampleStore.channelFilterIds "arc1" = some ["cfA", "cfB"] ∧
    (["cfA", "cfB"] : List String)[0]? = some "cfA" ∧
    netOk.putMoveToPosition "cfA" 1 = some () ∧
    (sampleStore.moveChannelFilterToPosition netOk "arc1" 0 1).events =
      Event.stateUpdate "channelFilterIds" ::
        Event.netCall "PUT" (AlertReceiveChannelStore.moveChannelFilterToPositionPath "cfA" 1) ::
        ({ sampleStore with channelFilterIds := sampleStore.channelFilterIds.set "arc1" (move ["cfA", "cfB"] 0 1) }.fetchChannelFilters netOk "arc1" true).events :=
  ⟨rfl, rfl, rfl,
   (moveChannelFilterToPosition_steps sampleStore netOk "arc1" 0 1
     ["cfA", "cfB"] "cfA" rfl rfl rfl).2.1⟩

/-- C3 counterexample: `moveChannelFilterToPosition` mutates the store before
its network call returns.  On an oracle where every endpoint fails, the
operation's PUT gets no response (`ret = none`), yet the local route order of
parent `arc1` has already been changed from `[cfA, cfB]` to `[cfB, cfA]`, so
the store's state is not unchanged on failure. -/
theorem moveChannelFilterToPosition_mutates_despite_failure :
    Net.failing netFail ∧
    (sampleStore.moveChannelFilterToPosition netFail "arc1" 0 1).ret = none ∧
    sampleStore.channelFilterIds "arc1" = some ["cfA", "cfB"] ∧
    (sampleStore.moveChannelFilterToPosition netFail "arc1" 0 1).state.channelFilterIds "arc1" = some ["cfB", "cfA"] :=
  ⟨netFail_failing, rfl, rfl, rfl⟩

/-- C3 amended: mutations are applied per response inside `runInAction` for
all operations except `moveChannelFilterToPosition` and
`deleteChannelFilter`: when every endpoint fails, `fetchChannelFilters`,
`saveChannelFilter`, `fetchItems`, `fetchItemById`, `fetchCounters` and
`create` leave the store exactly unchanged, while
`moveChannelFilterToPosition` and `deleteChannelFilter` optimistically
mutate the local `channelFilterIds` list before their network call and on
failure leave every other field unchanged. -/
theorem ops_on_network_failure
    (s : AlertReceiveChannelStore) (net : Net) (hf : Net.failing net)
    (parentId cfId arcId query : String) (oldIndex newIndex : Nat)
    (dataCf : ChannelFilter) (dataArc : AlertReceiveChannel) (ov : Bool) :
    (s.fetchChannelFilters net parentId ov).state = s ∧
    (s.saveChannelFilter net cfId dataCf).state = s ∧
    (s.fetchItems net query).state = s ∧
    (s.fetchItemById net arcId).state = s ∧
    (s.fetchCounters net).state = s ∧
    (s.create net dataArc).state = s ∧
    ((s.moveChannelFilterToPosition net parentId oldIndex newIndex).state.items = s.items ∧
      (s.moveChannelFilterToPosition net parentId oldIndex newIndex).state.channelFilters = s.channelFilters ∧
      (s.moveChannelFilterToPosition net parentId oldIndex newIndex).state.counters = s.counters ∧
      (s.moveChannelFilterToPosition net parentId oldIndex newIndex).state.alertReceiveChannelToHeartbeat = s.alertReceiveChannelToHeartbeat ∧
      (s.moveChannelFilterToPosition net parentId oldIndex newIndex).state.heartbeatStoreItems = s.heartbeatStoreItems ∧
      (s.moveChannelFilterToPosition net parentId oldIndex newIndex).state.searchResult = s.searchResult) ∧
    ((s.deleteChannelFilter net cfId).state.items = s.items ∧
      (s.deleteChannelFilter net cfId).state.channelFilters = s.channelFilters ∧
      (s.deleteChannelFilter net cfId).state.counters = s.counters ∧
      (s.deleteChannelFilter net cfId).state.alertReceiveChannelToHeartbeat = s.alertReceiveChannelToHeartbeat ∧
      (s.deleteChannelFilter net cfId).state.heartbeatStoreItems = s.heartbeatStoreItems ∧
      (s.deleteChannelFilter net cfId).state.searchResult = s.searchResult) := by
  obtain ⟨h1, h2, h3, h4, h5, h6, h7, h8, h9⟩ := hf
  refine ⟨?_, ?_, ?_, ?_, ?_, ?_, ?_, ?_⟩
  · unfold AlertReceiveChannelStore.fetchChannelFilters
    rw [h1]
  · unfold AlertReceiveChannelStore.saveChannelFilter
    rw [h2]
  · unfold AlertReceiveChannelStore.fetchItems
    rw [h5]
  · unfold AlertReceiveChannelStore.fetchItemById
    rw [h6]
  · unfold AlertReceiveChannelStore.fetchCounters
    rw [h7]
  · unfold AlertReceiveChannelStore.create
    rw [h8]
  · unfold AlertReceiveChannelStore.moveChannelFilterToPosition
    split
    · exact ⟨rfl, rfl, rfl, rfl, rfl, rfl⟩
    · split
      · exact ⟨rfl, rfl, rfl, rfl, rfl, rfl⟩
      · rw [h3]
        exact ⟨rfl, rfl, rfl, rfl, rfl, rfl⟩
  · unfold AlertReceiveChannelStore.deleteChannelFilter
    split
    · exact ⟨rfl, rfl, rfl, rfl, rfl, rfl⟩
    · split
      · exact ⟨rfl, rfl, rfl, rfl, rfl, rfl⟩
      · rw [h4]
        exact ⟨rfl, rfl, rfl, rfl, rfl, rfl⟩

/-- Witness for C3 amended at the concrete failing oracle. -/
theorem ops_on_network_failure_witness :
    (sampleStore.fetchChannelFilters netFail "arc1" false).state = sampleStore ∧
    (sampleStore.moveChannelFilterToPosition netFail "arc1" 0 1).state.channelFilters = sampleStore.channelFilters :=
  ⟨(ops_on_network_failure sampleStore netFail netFail_failing "arc1" "cfA" "arc1" "" 0 1 cfA arcNew false).1,
   (ops_on_network_failure sampleStore netFail netFail_failing "arc1" "cfA" "arc1" "" 0 1 cfA arcNew false).2.2.2.2.2.2.1.2.1⟩

/-- C4 counterexample: a keyed entry is dropped by a non-delete operation.
`fetchChannelFilters` in overwrite mode replaces the `channelFilters`
mapping with the fetched entries: with `cfA` present beforehand and a
response containing only `cfB`, the completed fetch leaves no entry for
`cfA`. -/
theorem fetchChannelFilters_overwrite_drops_key :
    sampleStore.channelFilters "cfA" = some cfA ∧
    netOk.getChannelFilters "arc1" = some [cfB] ∧
    (sampleStore.fetchChannelFilters netOk "arc1" true).ret = some () ∧
    (sampleStore.fetchChannelFilters netOk "arc1" true).state.channelFilters "cfA" = none :=
  ⟨rfl, rfl, rfl, rfl⟩

/-- C4 amended: present keyed entries are preserved (only added to or
overwritten) by `fetchChannelFilters` without overwrite, `saveChannelFilter`,
`fetchItems` (for the `items`, `heartbeatStoreItems` and
`alertReceiveChannelToHeartbeat` mappings) and `fetchItemById` — except that
(a) `fetchChannelFilters` in overwrite mode (as triggered after move/delete)
replaces the `channelFilters` mapping with exactly the entries of the
response, dropping every other key, and (b) `fetchCounters` — and hence
`fetchItems`, which triggers it — replaces the `counters` mapping wholesale
with the counters response, dropping every key absent from it. -/
theorem keyed_entries_preserved
    (s : AlertReceiveChannelStore) (net : Net)
    (parentId cfId arcId query kcf kit kids khsi kmap : String)
    (dataCf : ChannelFilter) (resp : List ChannelFilter)
    (results : List AlertReceiveChannel) (cdata : StrMap Nat)
    (hcf : (s.channelFilters kcf).isSome)
    (hit : (s.items kit).isSome)
    (hids : (s.channelFilterIds kids).isSome)
    (hhsi : (s.heartbeatStoreItems khsi).isSome)
    (hmap : (s.alertReceiveChannelToHeartbeat kmap).isSome)
    (hresp : net.getChannelFilters parentId = some resp)
    (hqres : net.getAlertReceiveChannels query = some results)
    (hctr : net.getCounters = some cdata) :
    ((s.fetchChannelFilters net parentId false).state.channelFilters kcf).isSome ∧
    ((s.fetchChannelFilters net parentId false).state.items kit).isSome ∧
    ((s.fetchChannelFilters net parentId false).state.channelFilterIds kids).isSome ∧
    ((s.saveChannelFilter net cfId dataCf).state.channelFilters kcf).isSome ∧
    ((s.fetchItems net query).state.items kit).isSome ∧
    ((s.fetchItems net query).state.heartbeatStoreItems khsi).isSome ∧
    ((s.fetchItems net query).state.alertReceiveChannelToHeartbeat kmap).isSome ∧
    ((s.fetchItemById net arcId).state.items kit).isSome ∧
    (s.fetchChannelFilters net parentId true).state.channelFilters =
      reduceObj (fun cf => some (cf.id, cf)) resp StrMap.empty ∧
    (s.fetchItems net query).state.counters = cdata ∧
    (s.fetchCounters net).state.counters = cdata := by
  refine ⟨?_, ?_, ?_, ?_, ?_, ?_, ?_, ?_, ?_, ?_, ?_⟩
  · unfold AlertReceiveChannelStore.fetchChannelFilters
    split
    · exact hcf
    · exact StrMap.isSome_union _ _ _ hcf
  · unfold AlertReceiveChannelStore.fetchChannelFilters
    split
    · exact hit
    · exact hit
  · unfold AlertReceiveChannelStore.fetchChannelFilters
    split
    · exact hids
    · exact StrMap.isSome_set _ _ _ _ hids
  · unfold AlertReceiveChannelStore.saveChannelFilter
    split
    · exact hcf
    · exact StrMap.isSome_set _ _ _ _ hcf
  · unfold AlertReceiveChannelStore.fetchItems
    split
    · exact hit
    · unfold AlertReceiveChannelStore.fetchCounters
      split
      · exact StrMap.isSome_union _ _ _ hit
      · exact StrMap.isSome_union _ _ _ hit
  · unfold AlertReceiveChannelStore.fetchItems
    split
    · exact hhsi
    · unfold AlertReceiveChannelStore.fetchCounters
      split
      · exact StrMap.isSome_union _ _ _ hhsi
      · exact StrMap.isSome_union _ _ _ hhsi
  · unfold AlertReceiveChannelStore.fetchItems
    split
    · exact hmap
    · unfold AlertReceiveChannelStore.fetchCounters
      split
      · exact StrMap.isSome_union _ _ _ hmap
      · exact StrMap.isSome_union _ _ _ hmap
  · unfold AlertReceiveChannelStore.fetchItemById
    split
    · exact hit
    · exact StrMap.isSome_set _ _ _ _ hit
  · unfold AlertReceiveChannelStore.fetchChannelFilters
    rw [hresp]
    rfl
  · unfold AlertReceiveChannelStore.fetchItems AlertReceiveChannelStore.fetchCounters
    rw [hqres]
    rw [hctr]
  · unfold AlertReceiveChannelStore.fetchCounters
    rw [hctr]

/-- Witness for C4 amended at the concrete store and oracle. -/
theorem keyed_entries_preserved_witness :
    ((sampleStore.fetchChannelFilters netOk "arc1" false).state.channelFilters "cfA").isSome ∧
    ((sampleStore.fetchItems netOk "").state.items "arc1").isSome ∧
    (sampleStore.fetchChannelFilters netOk "arc1" true).state.channelFilters =
      reduceObj (fun cf => some (cf.id, cf)) [cfB] StrMap.empty ∧
    (sampleStore.fetchItems netOk "").state.counters = StrMap.empty.set "arc1" 3 :=
  ⟨(keyed_entries_preserved sampleStore netOk "arc1" "cfA" "arc1" "" "cfA" "arc1" "arc1" "hb1" "arc1" cfA [cfB] [arc1, arc2] (StrMap.empty.set "arc1" 3) rfl rfl rfl rfl rfl rfl rfl rfl).1,
   (keyed_entries_preserved sampleStore netOk "arc1" "cfA" "arc1" "" "cfA" "arc1" "arc1" "hb1" "arc1" cfA [cfB] [arc1, arc2] (StrMap.empty.set "arc1" 3) rfl rfl rfl rfl rfl rfl rfl rfl).2.2.2.2.1,
   (keyed_entries_preserved sampleStore netOk "arc1" "cfA" "arc1" "" "cfA" "arc1" "arc1" "hb1" "arc1" cfA [cfB] [arc1, arc2] (StrMap.empty.set "arc1" 3) rfl rfl rfl rfl rfl rfl rfl rfl).2.2.2.2.2.2.2.2.1,
   (keyed_entries_preserved sampleStore netOk "arc1" "cfA" "arc1" "" "cfA" "arc1" "arc1" "hb1" "arc1" cfA [cfB] [arc1, arc2] (StrMap.empty.set "arc1" 3) rfl rfl rfl rfl rfl rfl rfl rfl).2.2.2.2.2.2.2.2.2.1⟩

/-- C5 counterexample: a successful create call does not make the created
channel present in `items`: the response's channel has the server-assigned
id `arcNew` and the call returns it, yet `items` has no entry under that id
afterwards. -/
theorem create_does_not_insert_item :
    netOk.postAlertReceiveChannel arcNew = some arcNew ∧
    (sampleStore.create netOk arcNew).ret = some arcNew ∧
    arcNew.id = "arcNew" ∧
    (sampleStore.create netOk arcNew).state.items "arcNew" = none :=
  ⟨rfl, rfl, rfl, rfl⟩

/-- C5 amended: `create` leaves the whole store state — its `items` mapping
included — unchanged; the created channel is only returned to the caller
(after the organization reload), and it is a subsequent fetch that creates
the keyed entry. -/
theorem create_leaves_state_unchanged
    (s : AlertReceiveChannelStore) (net : Net) (data : AlertReceiveChannel) :
    (s.create net data).state = s := by
  unfold AlertReceiveChannelStore.create
  split
  · rfl
  · split
    · rfl
    · rfl

/-- C6 counterexample: `deleteChannelFilter` issues its DELETE request to
`/channel_filters/{id}` without the trailing slash: the issued path's last
character is the id's last character, not `'/'` (whereas
`saveChannelFilter`'s path does end in `'/'`), so not every channel-filter
request targets `/channel_filters/{id}/`. -/
theorem deleteChannelFilter_path_lacks_trailing_slash :
    Event.netCall "DELETE" "/channel_filters/cfA" ∈ (sampleStore.deleteChannelFilter netOk "cfA").events ∧
    "/channel_filters/cfA".data.getLast? = some 'A' ∧
    (AlertReceiveChannelStore.saveChannelFilterPath "cfA").data.getLast? = some '/' := by
  decide

/-- C6 amended: the channel-filter requests are built from the id as
follows — `saveChannelFilter` PUTs to `/channel_filters/{id}/` (trailing
slash), `moveChannelFilterToPosition` PUTs to
`/channel_filters/{id}/move_to_position/?position={newIndex}`, and
`deleteChannelFilter` DELETEs to `/channel_filters/{id}` without the
trailing slash. -/
theorem channel_filter_request_paths
    (s : AlertReceiveChannelStore) (net : Net)
    (cfId parentId movedId : String) (dataCf : ChannelFilter)
    (cf : ChannelFilter) (ids ids2 : List String) (oldIndex newIndex : Nat)
    (hids : s.channelFilterIds parentId = some ids)
    (hold : ids[oldIndex]? = some movedId)
    (hcf : s.channelFilters cfId = some cf)
    (hcfids : s.channelFilterIds cf.alert_receive_channel = some ids2) :
    Event.netCall "PUT" ("/channel_filters/" ++ cfId ++ "/") ∈ (s.saveChannelFilter net cfId dataCf).events ∧
    Event.netCall "PUT" ("/channel_filters/" ++ movedId ++ "/move_to_position/?position=" ++ toString newIndex) ∈ (s.moveChannelFilterToPosition net parentId oldIndex newIndex).events ∧
    Event.netCall "DELETE" ("/channel_filters/" ++ cfId) ∈ (s.deleteChannelFilter net cfId).events := by
  refine ⟨?_, ?_, ?_⟩
  · unfold AlertReceiveChannelStore.saveChannelFilter
    split
    · exact List.mem_cons_self _ _
    · exact List.mem_cons_self _ _
  · unfold AlertReceiveChannelStore.moveChannelFilterToPosition
    simp only [hids, hold]
    split
    · exact List.mem_cons_of_mem _ (List.mem_cons_self _ _)
    · exact List.mem_cons_of_mem _ (List.mem_cons_self _ _)
  · unfold AlertReceiveChannelStore.deleteChannelFilter
    simp only [hcf, hcfids]
    split
    · exact List.mem_cons_of_mem _ (List.mem_cons_self _ _)
    · exact List.mem_cons_of_mem _ (List.mem_cons_self _ _)

/-- Witness for C6 amended at the concrete store and oracle. -/
theorem channel_filter_request_paths_witness :
    Event.netCall "PUT" ("/channel_filters/" ++ "cfA" ++ "/") ∈ (sampleStore.saveChannelFilter netOk "cfA" cfA).events ∧
    Event.netCall "DELETE" ("/channel_filters/" ++ "cfA") ∈ (sampleStore.deleteChannelFilter netOk "cfA").events :=
  ⟨(channel_filter_request_paths sampleStore netOk "cfA" "arc1" "cfA" cfA cfA ["cfA", "cfB"] ["cfA", "cfB"] 0 1 rfl rfl rfl rfl).1,
   (channel_filter_request_paths sampleStore netOk "cfA" "arc1" "cfA" cfA cfA ["cfA", "cfB"] ["cfA", "cfB"] 0 1 rfl rfl rfl rfl).2.2⟩

/-- C7: after `fetchChannelFilters(parentId)` completes on a server response
(in either overwrite mode), `channelFilterIds[parentId]` equals the list of
the response's channel filter ids in server order, and every channel filter
of the response is present in `channelFilters` keyed by its own id.  The
response is assumed to carry server-assigned ids: distinct filters have
distinct ids. -/
theorem fetchChannelFilters_syncs_order_and_entries
    (s : AlertReceiveChannelStore) (net : Net) (parentId : String)
    (ov : Bool) (response : List ChannelFilter)
    (hresp : net.getChannelFilters parentId = some response)
    (hinj : ∀ a ∈ response, ∀ b ∈ response, a.id = b.id → a = b) :
    (s.fetchChannelFilters net parentId ov).state.channelFilterIds parentId = some (response.map ChannelFilter.id) ∧
    ∀ cf ∈ response, (s.fetchChannelFilters net parentId ov).state.channelFilters cf.id = some cf := by
  have hM : ∀ cf ∈ response,
      reduceObj (fun x : ChannelFilter => some (x.id, x)) response StrMap.empty cf.id = some cf := by
    intro cf hcf
    refine reduceObj_lookup _ cf.id cf response StrMap.empty ⟨cf, hcf, rfl⟩ ?_
    intro b hb kv heb hk
    have hkv : kv = (b.id, b) := (Option.some.inj heb).symm
    subst hkv
    exact hinj b hb cf hcf hk
  unfold AlertReceiveChannelStore.fetchChannelFilters
  rw [hresp]
  cases ov with
  | false =>
    refine ⟨StrMap.set_same _ _ _, ?_⟩
    intro cf hcf
    exact StrMap.union_of_right _ _ _ _ (hM cf hcf)
  | true =>
    refine ⟨StrMap.set_same _ _ _, ?_⟩
    intro cf hcf
    exact hM cf hcf

/-- Witness for C7 at the concrete store, oracle and response `[cfB]`. -/
theorem fetchChannelFilters_syncs_witness :
    netOk.getChannelFilters "arc1" = some [cfB] ∧
    (sampleStore.fetchChannelFilters netOk "arc1" true).state.channelFilterIds "arc1" = some ["cfB"] ∧
    (sampleStore.fetchChannelFilters netOk "arc1" true).state.channelFilters "cfB" = some cfB := by
  refine ⟨rfl, ?_, ?_⟩
  · exact (fetchChannelFilters_syncs_order_and_entries sampleStore netOk "arc1" true [cfB] rfl (by decide)).1
  · exact (fetchChannelFilters_syncs_order_and_entries sampleStore netOk "arc1" true [cfB] rfl (by decide)).2 cfB (by decide)

/-- C10: the two fetch paths store items differently with respect to
heartbeats.  Every entry written into `items` by `fetchItems` has its
`heartbeat` key removed, the response's heartbeats being stored in the
heartbeat store keyed by heartbeat id and in `alertReceiveChannelToHeartbeat`
keyed by channel id instead; whereas `fetchItemById` stores the item with
its `heartbeat` key present, set to the response's heartbeat or `null`.
Server-assigned ids are assumed unique: distinct channels of the response
have distinct ids, and so do distinct heartbeats. -/
theorem fetch_paths_heartbeat_storage
    (s : AlertReceiveChannelStore) (net : Net) (query arcId : String)
    (results : List AlertReceiveChannel) (data : AlertReceiveChannel)
    (hres : net.getAlertReceiveChannels query = some results)
    (hinj : ∀ a ∈ results, ∀ b ∈ results, a.id = b.id → a = b)
    (hhbinj : ∀ a ∈ results, ∀ b ∈ results, ∀ ha ∈ a.heartbeat.join.toList, ∀ hb ∈ b.heartbeat.join.toList, ha.id = hb.id → ha = hb)
    (hitem : net.getAlertReceiveChannel arcId = some data) :
    (∀ a ∈ results, (s.fetchItems net query).state.items a.id = some { a with heartbeat := none }) ∧
    (∀ a ∈ results, ∀ hb, a.heartbeat.join = some hb →
      (s.fetchItems net query).state.heartbeatStoreItems hb.id = some hb ∧
      (s.fetchItems net query).state.alertReceiveChannelToHeartbeat a.id = some hb.id) ∧
    (s.fetchItemById net arcId).state.items arcId = some { data with heartbeat := some data.heartbeat.join } := by
  have hM : ∀ a ∈ results,
      reduceObj (fun item : AlertReceiveChannel => some (item.id, omitHeartbeat item)) results StrMap.empty a.id
        = some (omitHeartbeat a) := by
    intro a ha
    refine reduceObj_lookup _ a.id (omitHeartbeat a) results StrMap.empty ⟨a, ha, rfl⟩ ?_
    intro b hb kv heb hk
    have hkv : kv = (b.id, omitHeartbeat b) := (Option.some.inj heb).symm
    subst hkv
    rw [hinj b hb a ha hk]
  have hH : ∀ a ∈ results, ∀ hb, a.heartbeat.join = some hb →
      reduceObj (fun arc : AlertReceiveChannel => (arc.heartbeat.join).map (fun h => (h.id, h))) results StrMap.empty hb.id
        = some hb := by
    intro a ha hb hj
    refine reduceObj_lookup _ hb.id hb results StrMap.empty ⟨a, ha, by rw [hj]; rfl⟩ ?_
    intro b hbmem kv heb hk
    cases hjb : b.heartbeat.join with
    | none =>
      rw [hjb] at heb
      simp at heb
    | some h' =>
      rw [hjb, Option.map_some'] at heb
      have hkv : kv = (h'.id, h') := (Option.some.inj heb).symm
      subst hkv
      have hmem : h' ∈ b.heartbeat.join.toList := by rw [hjb]; simp
      have hmem' : hb ∈ a.heartbeat.join.toList := by rw [hj]; simp
      exact hhbinj b hbmem a ha h' hmem hb hmem' hk
  have hT : ∀ a ∈ results, ∀ hb, a.heartbeat.join = some hb →
      reduceObj (fun arc : AlertReceiveChannel => (arc.heartbeat.join).map (fun h => (arc.id, h.id))) results StrMap.empty a.id
        = some hb.id := by
    intro a ha hb hj
    refine reduceObj_lookup _ a.id hb.id results StrMap.empty ⟨a, ha, by rw [hj]; rfl⟩ ?_
    intro b hbmem kv heb hk
    cases hjb : b.heartbeat.join with
    | none =>
      rw [hjb] at heb
      simp at heb
    | some h' =>
      rw [hjb, Option.map_some'] at heb
      have hkv : kv = (b.id, h'.id) := (Option.some.inj heb).symm
      subst hkv
      have hba : b = a := hinj b hbmem a ha hk
      subst hba
      have hhb : h' = hb := Option.some.inj (hjb.symm.trans hj)
      rw [hhb]
  refine ⟨?_, ?_, ?_⟩
  · intro a ha
    unfold AlertReceiveChannelStore.fetchItems AlertReceiveChannelStore.fetchCounters
    simp only [hres]
    split
    · exact StrMap.union_of_right _ _ _ _ (hM a ha)
    · exact StrMap.union_of_right _ _ _ _ (hM a ha)
  · intro a ha hb hj
    constructor
    · unfold AlertReceiveChannelStore.fetchItems AlertReceiveChannelStore.fetchCounters
      simp only [hres]
      split
      · exact StrMap.union_of_right _ _ _ _ (hH a ha hb hj)
      · exact StrMap.union_of_right _ _ _ _ (hH a ha hb hj)
    · unfold AlertReceiveChannelStore.fetchItems AlertReceiveChannelStore.fetchCounters
      simp only [hres]
      split
      · exact StrMap.union_of_right _ _ _ _ (hT a ha hb hj)
      · exact StrMap.union_of_right _ _ _ _ (hT a ha hb hj)
  · unfold AlertReceiveChannelStore.fetchItemById
    rw [hitem]
    exact StrMap.set_same _ _ _

/-- Witness for C10 at the concrete store and oracle: the list fetch stores
`arc1` without its heartbeat key and records `hb1` in the heartbeat
mappings, while the single fetch stores `arc1` with its heartbeat. -/
theorem fetch_paths_heartbeat_storage_witness :
    (sampleStore.fetchItems netOk "").state.items "arc1" = some { arc1 with heartbeat := none } ∧
    (sampleStore.fetchItems netOk "").state.heartbeatStoreItems "hb1" = some hb1 ∧
    (sampleStore.fetchItems netOk "").state.alertReceiveChannelToHeartbeat "arc1" = some "hb1" ∧
    (sampleStore.fetchItemById netOk "arc1").state.items "arc1" = some { arc1 with heartbeat := some (some hb1) } := by
  have h := fetch_paths_heartbeat_storage sampleStore netOk "" "arc1" [arc1, arc2] arc1
    rfl (by decide) (by decide) rfl
  exact ⟨h.1 arc1 (by decide), (h.2.1 arc1 (by decide) hb1 rfl).1,
    (h.2.1 arc1 (by decide) hb1 rfl).2, h.2.2⟩

end OnCall
